import Mathlib

/-!
Verification of the focusless text-input engine of the bloxchat desktop
client (`apps/desktop/src/components/ChatInput.tsx`).

JavaScript strings are sequences of UTF-16 code units, and all of the
component's offset arithmetic (`String.prototype.slice`, `.length`,
index bookkeeping for `selectionStart` / `selectionEnd`) operates on
code units.  We therefore embed a JS string as `List Nat`, one entry per
UTF-16 code unit.  `utf16` embeds a literal; for characters of the Basic
Multilingual Plane the unit equals the scalar value, an astral scalar
becomes a surrogate pair of two units.
-/

namespace BloxChat

/-- UTF-16 encoding of one Unicode scalar value (one or two code units). -/
def encodeUtf16Char (c : Char) : List Nat :=
  if c.toNat < 0x10000 then [c.toNat]
  else [0xD800 + (c.toNat - 0x10000) / 0x400, 0xDC00 + (c.toNat - 0x10000) % 0x400]

/-- A JS string literal as its list of UTF-16 code units. -/
def utf16 (s : String) : List Nat :=
  (s.data.map encodeUtf16Char).flatten

/-- The authoritative editing state of the input surface: the React
component's `value` prop together with the `selectionStart` /
`selectionEnd` state (ChatInput.tsx lines 216, 232-233). -/
structure TextState where
  value : List Nat
  selectionStart : Nat
  selectionEnd : Nat
deriving DecidableEq, Repr

/-- `clamp(value, min, max) = Math.max(min, Math.min(max, value))`
(ChatInput.tsx lines 56-57).  JS numbers embedded as `Int`. -/
def clamp (v lo hi : Int) : Int :=
  max lo (min hi v)

/-- `clamp(v, 0, len)` used as a list index. -/
def clampIdx (v : Int) (len : Nat) : Nat :=
  (clamp v 0 len).toNat

/-- `toNormalizedRange(start, end) = { start: min, end: max }`
(ChatInput.tsx lines 59-62), as a pair `(min, max)`. -/
def toNormalizedRange (start stop : Nat) : Nat × Nat :=
  (min start stop, max start stop)

/-- `updateSelection(start, end)` (ChatInput.tsx lines 283-286): clamp
both offsets into the current value's bounds. -/
def updateSelection (st : TextState) (start stop : Int) : TextState :=
  { st with
    selectionStart := clampIdx start st.value.length
    selectionEnd := clampIdx stop st.value.length }

/-- `applyValueAndSelection(nextValue, nextSelectionStart, nextSelectionEnd)`
(ChatInput.tsx lines 288-300): install a new value and clamp both
offsets into the *new* value's bounds.  (The source posts these through
`onChange`/`setSelectionStart`/`setSelectionEnd` in one `flushSync`;
here it is the pure state transformer.) -/
def applyValueAndSelection (nextValue : List Nat)
    (nextSelectionStart nextSelectionEnd : Nat) : TextState :=
  { value := nextValue
    selectionStart := clampIdx nextSelectionStart nextValue.length
    selectionEnd := clampIdx nextSelectionEnd nextValue.length }

/-- `replaceSelectionWith(insertText)` (ChatInput.tsx lines 302-308):
`value.slice(0, normalized.start) + insertText + value.slice(normalized.end)`,
caret collapsed to `normalized.start + insertText.length`. -/
def replaceSelectionWith (st : TextState) (insertText : List Nat) : TextState :=
  let n := toNormalizedRange st.selectionStart st.selectionEnd
  let nextValue := st.value.take n.1 ++ insertText ++ st.value.drop n.2
  let nextCaret := n.1 + insertText.length
  applyValueAndSelection nextValue nextCaret nextCaret

/-- `deleteBackward()` (ChatInput.tsx lines 363-375). -/
def deleteBackward (st : TextState) : TextState :=
  let n := toNormalizedRange st.selectionStart st.selectionEnd
  if n.1 ≠ n.2 then replaceSelectionWith st []
  else if n.1 = 0 then st
  else applyValueAndSelection (st.value.take (n.1 - 1) ++ st.value.drop n.1)
    (n.1 - 1) (n.1 - 1)

/-- `deleteForward()` (ChatInput.tsx lines 377-387). -/
def deleteForward (st : TextState) : TextState :=
  let n := toNormalizedRange st.selectionStart st.selectionEnd
  if n.1 ≠ n.2 then replaceSelectionWith st []
  else if st.value.length ≤ n.2 then st
  else applyValueAndSelection (st.value.take n.2 ++ st.value.drop (n.2 + 1)) n.2 n.2

/-- `moveCaret(delta, extend)` (ChatInput.tsx lines 336-352). -/
def moveCaret (st : TextState) (delta : Int) (extend : Bool) : TextState :=
  if extend then
    let nextEnd := clampIdx ((st.selectionEnd : Int) + delta) st.value.length
    updateSelection st st.selectionStart nextEnd
  else
    let n := toNormalizedRange st.selectionStart st.selectionEnd
    if st.selectionStart ≠ st.selectionEnd then
      let collapsedTo : Nat := if delta < 0 then n.1 else n.2
      updateSelection st collapsedTo collapsedTo
    else
      let next := clampIdx ((n.2 : Int) + delta) st.value.length
      updateSelection st next next

/-- `moveCaretToBoundary(toEnd, extend)` (ChatInput.tsx lines 354-361). -/
def moveCaretToBoundary (st : TextState) (toEnd : Bool) (extend : Bool) : TextState :=
  let next : Nat := if toEnd then st.value.length else 0
  if extend then updateSelection st st.selectionStart next
  else updateSelection st next next

/-- Select-all, `updateSelection(0, value.length)` — the `"KeyA"` arm of
`handleClipboardShortcut` (ChatInput.tsx lines 398-401), also the
spec's `selectAll()`. -/
def selectAll (st : TextState) : TextState :=
  updateSelection st 0 st.value.length

/-- Both selection offsets lie inside the current value. -/
def SelectionInBounds (st : TextState) : Prop :=
  st.selectionStart ≤ st.value.length ∧ st.selectionEnd ≤ st.value.length

instance (st : TextState) : Decidable (SelectionInBounds st) := by
  unfold SelectionInBounds; infer_instance

/-! ### Key events and the keycode resolver (ChatInput.tsx lines 20-212) -/

inductive KeyPhase where
  | down
  | up
deriving DecidableEq, Repr

/-- `GlobalKeyPayload` (ChatInput.tsx lines 20-31).  `text` is the
optional OS-composed string (`string | null`), embedded at the UTF-16
code-unit level; `caps` is the optional caps-lock flag.  The source
field `repeat` is embedded as `repeated` (`repeat` is reserved in Lean). -/
structure GlobalKeyPayload where
  code : String
  text : Option (List Nat) := none
  phase : KeyPhase
  ctrl : Bool
  shift : Bool
  caps : Option Bool := none
  alt : Bool
  meta : Bool
  repeated : Bool := false
  timestamp_ms : Nat := 0
deriving DecidableEq, Repr

/-- `shiftedNumberMap` (ChatInput.tsx lines 64-75); values are the
code units of the one-character strings. -/
def shiftedNumberMap : String → Option Nat
  | "Digit1" => some 33   -- "!"
  | "Digit2" => some 64   -- "@"
  | "Digit3" => some 35   -- "#"
  | "Digit4" => some 36   -- "$"
  | "Digit5" => some 37   -- "%"
  | "Digit6" => some 94   -- "^"
  | "Digit7" => some 38   -- "&"
  | "Digit8" => some 42   -- "*"
  | "Digit9" => some 40   -- "("
  | "Digit0" => some 41   -- ")"
  | _ => none

/-- `shiftedSymbolMap` (ChatInput.tsx lines 77-89). -/
def shiftedSymbolMap : String → Option Nat
  | "Backquote" => some 126    -- "~"
  | "Minus" => some 95         -- "_"
  | "Equal" => some 43         -- "+"
  | "BracketLeft" => some 123  -- left curly brace
  | "BracketRight" => some 125 -- right curly brace
  | "Backslash" => some 124    -- "|"
  | "Semicolon" => some 58     -- ":"
  | "Quote" => some 34         -- double quote
  | "Comma" => some 60         -- "<"
  | "Period" => some 62        -- ">"
  | "Slash" => some 63         -- "?"
  | _ => none

/-- `unshiftedSymbolMap` (ChatInput.tsx lines 91-103). -/
def unshiftedSymbolMap : String → Option Nat
  | "Backquote" => some 96     -- backtick
  | "Minus" => some 45         -- "-"
  | "Equal" => some 61         -- "="
  | "BracketLeft" => some 91   -- "["
  | "BracketRight" => some 93  -- "]"
  | "Backslash" => some 92     -- backslash
  | "Semicolon" => some 59     -- ";"
  | "Quote" => some 39         -- single quote
  | "Comma" => some 44         -- ","
  | "Period" => some 46        -- "."
  | "Slash" => some 47         -- "/"
  | _ => none

/-- `forceCodeMappedCodes` (ChatInput.tsx lines 105-114): the keys of the
three maps (the two symbol maps share their keys) plus five numpad
operator codes, collected into a `Set`. -/
def forceCodeMappedCodes : List String :=
  ["Digit1", "Digit2", "Digit3", "Digit4", "Digit5",
   "Digit6", "Digit7", "Digit8", "Digit9", "Digit0",
   "Backquote", "Minus", "Equal", "BracketLeft", "BracketRight",
   "Backslash", "Semicolon", "Quote", "Comma", "Period", "Slash",
   "NumpadAdd", "NumpadSubtract", "NumpadMultiply", "NumpadDivide",
   "NumpadDecimal"]

/-- The test `/^Key[A-Z]$/.test(code)` (ChatInput.tsx lines 119, 196). -/
def isKeyLetterCode (code : String) : Bool :=
  match code.data with
  | ['K', 'e', 'y', c] => decide (65 ≤ c.toNat) && decide (c.toNat ≤ 90)
  | _ => false

/-- The test `/^Digit[0-9]$/.test(code)` (ChatInput.tsx line 124). -/
def isDigitKeyCode (code : String) : Bool :=
  match code.data with
  | ['D', 'i', 'g', 'i', 't', c] => decide (48 ≤ c.toNat) && decide (c.toNat ≤ 57)
  | _ => false

/-- `code.startsWith("Numpad") && code.length === "Numpad0".length` with a
digit in the final position (ChatInput.tsx lines 128-131). -/
def isNumpadDigitCode (code : String) : Bool :=
  match code.data with
  | ['N', 'u', 'm', 'p', 'a', 'd', c] => decide (48 ≤ c.toNat) && decide (c.toNat ≤ 57)
  | _ => false

/-- The test `/^F\d{1,2}$/.test(code)` (ChatInput.tsx line 188). -/
def isFunctionKeyCode (code : String) : Bool :=
  match code.data with
  | ['F', a] => decide (48 ≤ a.toNat) && decide (a.toNat ≤ 57)
  | ['F', a, b] => (decide (48 ≤ a.toNat) && decide (a.toNat ≤ 57))
      && (decide (48 ≤ b.toNat) && decide (b.toNat ≤ 57))
  | _ => false

/-- `code.slice(3)` of a `KeyX` code, as a code unit. -/
def letterUnit (code : String) : Nat :=
  (code.data.getD 3 'a').toNat

/-- `code.slice(5)` of a `DigitN` code, as a code unit. -/
def digitUnit (code : String) : Nat :=
  (code.data.getD 5 '0').toNat

/-- `code.slice("Numpad".length)` of a `NumpadN` code, as a code unit. -/
def numpadDigitUnit (code : String) : Nat :=
  (code.data.getD 6 '0').toNat

/-- `mapPrintableCharacter(code, shift)` (ChatInput.tsx lines 116-142).
For an `A`-`Z` letter unit `u`, `toLowerCase()` is `u + 32`. -/
def mapPrintableCharacter (code : String) (shift : Bool) : Option (List Nat) :=
  if code = "Space" then some [32]
  else if isKeyLetterCode code then
    some (if shift then [letterUnit code] else [letterUnit code + 32])
  else if isDigitKeyCode code then
    if shift then (shiftedNumberMap code).map (fun u => [u])
    else some [digitUnit code]
  else if isNumpadDigitCode code then some [numpadDigitUnit code]
  else if code = "NumpadAdd" then some [43]       -- "+"
  else if code = "NumpadSubtract" then some [45]  -- "-"
  else if code = "NumpadMultiply" then some [42]  -- "*"
  else if code = "NumpadDivide" then some [47]    -- "/"
  else if code = "NumpadDecimal" then some [46]   -- "."
  else if shift then (shiftedSymbolMap code).map (fun u => [u])
  else (unshiftedSymbolMap code).map (fun u => [u])

/-- `nonTextKeyCodes` (ChatInput.tsx lines 144-173). -/
def nonTextKeyCodes : List String :=
  ["Escape", "Enter", "NumpadEnter", "Tab", "Backspace", "Delete",
   "ArrowLeft", "ArrowRight", "ArrowUp", "ArrowDown", "Home", "End",
   "PageUp", "PageDown", "Insert", "CapsLock", "NumLock", "ScrollLock",
   "Pause", "PrintScreen", "ShiftLeft", "ShiftRight", "ControlLeft",
   "ControlRight", "AltLeft", "AltRight", "MetaLeft", "MetaRight"]

/-- `hasControlCharacters(value)` (ChatInput.tsx lines 175-183): iterate
the string by code points (`for...of`), checking `char.charCodeAt(0)` —
for a surrogate pair that is the high surrogate — against
`< 0x20 || === 0x7f`. -/
def hasControlCharacters : List Nat → Bool
  | [] => false
  | [u] => decide (u < 0x20) || decide (u = 0x7F)
  | u :: l :: rest =>
    if 0xD800 ≤ u ∧ u ≤ 0xDBFF ∧ 0xDC00 ≤ l ∧ l ≤ 0xDFFF then
      (decide (u < 0x20) || decide (u = 0x7F)) || hasControlCharacters rest
    else
      (decide (u < 0x20) || decide (u = 0x7F)) || hasControlCharacters (l :: rest)

/-- The local `normalized` of `resolveTextFromGlobalEvent` (ChatInput.tsx
line 192): `typeof raw === "string" ? raw.replace(/\r/g, "") : ""`. -/
def normalizedEventText (event : GlobalKeyPayload) : List Nat :=
  match event.text with
  | some raw => raw.filter (fun u => u ≠ 13)
  | none => []

/-- The local `hasValidRaw` (ChatInput.tsx line 193):
`normalized.length > 0 && !hasControlCharacters(normalized)`. -/
def hasValidRawText (event : GlobalKeyPayload) : Bool :=
  decide (0 < (normalizedEventText event).length)
    && !hasControlCharacters (normalizedEventText event)

/-- The test `/^[a-zA-Z]$/.test(normalized)` (ChatInput.tsx line 197). -/
def isSingleAsciiLetter (l : List Nat) : Bool :=
  match l with
  | [u] => (decide (97 ≤ u) && decide (u ≤ 122)) || (decide (65 ≤ u) && decide (u ≤ 90))
  | _ => false

/-- `resolveTextFromGlobalEvent(event)` (ChatInput.tsx lines 185-212).
The source's local `mapped` is inlined (it is read once), and
`uppercase = event.shift !== (event.caps === true)` is inlined into the
conditional it selects. -/
def resolveTextFromGlobalEvent (event : GlobalKeyPayload) : Option (List Nat) :=
  if event.ctrl || event.meta || event.alt then none
  else if nonTextKeyCodes.contains event.code then none
  else if isFunctionKeyCode event.code then none
  else if isKeyLetterCode event.code then
    if hasValidRawText event && !isSingleAsciiLetter (normalizedEventText event) then
      some (normalizedEventText event)
    else if event.shift != (event.caps == some true) then some [letterUnit event.code]
    else some [letterUnit event.code + 32]
  else if (mapPrintableCharacter event.code event.shift).isSome
      && forceCodeMappedCodes.contains event.code then
    mapPrintableCharacter event.code event.shift
  else if !hasValidRawText event then none
  else some (normalizedEventText event)

/-! ### Suggestion engine (ChatInput.tsx lines 52-54, 253-281, 310-334) -/

/-- The `EmojiSuggestion` record of the emoji library (fields used by
ChatInput.tsx: `shortcode`, `emoji`). -/
structure EmojiSuggestion where
  shortcode : List Nat
  emoji : List Nat
deriving DecidableEq, Repr

/-- The `Suggestion` union (ChatInput.tsx lines 52-54). -/
inductive Suggestion where
  | mention (value : List Nat)
  | emoji (value : EmojiSuggestion)
deriving DecidableEq, Repr

/-- `jsLastIndexOf l u` is `l.lastIndexOf(u)` on a JS string: the index of
the last occurrence of the unit `u`, or `-1`. -/
def jsLastIndexOf (l : List Nat) (u : Nat) : Int :=
  ((l.reverse.findIdx? (fun v => v = u)).map
    (fun i : Nat => (l.length : Int) - 1 - (i : Int))).getD (-1)

/-- The replacement text of `insertSuggestion` (ChatInput.tsx lines
322-325): `` `@${suggestion.value}` `` for a mention, the glyph for an
emoji. -/
def suggestionReplacement : Suggestion → List Nat
  | .mention v => 64 :: v        -- "@" ++ username
  | .emoji v => v.emoji

/-- The text-state part of `insertSuggestion(suggestion)` (ChatInput.tsx
lines 310-331): replace from `wordStart` (one past
`Math.max(before.lastIndexOf(" "), before.lastIndexOf("\t"),
before.lastIndexOf("\n"))`) through the normalized selection with the
replacement plus a trailing space (unit 32), caret collapsed after it. -/
def insertSuggestionText (st : TextState) (suggestion : Suggestion) : TextState :=
  let n := toNormalizedRange st.selectionStart st.selectionEnd
  let before := st.value.take n.1
  let after := st.value.drop n.2
  let lastWhitespace :=
    max (jsLastIndexOf before 32) (max (jsLastIndexOf before 9) (jsLastIndexOf before 10))
  let wordStart := (lastWhitespace + 1).toNat
  let replacement := suggestionReplacement suggestion
  let nextBefore := before.take wordStart ++ replacement ++ [32]
  let nextValue := nextBefore ++ after
  applyValueAndSelection nextValue nextBefore.length nextBefore.length

/-- The suggestion-session component state (ChatInput.tsx lines 229-233):
the text state together with `suggestions`, `showSuggestions`,
`activeIndex`. -/
structure EditorState where
  text : TextState
  suggestions : List Suggestion
  showSuggestions : Bool
  activeIndex : Nat
deriving DecidableEq, Repr

/-- `insertSuggestion` on the full component state (ChatInput.tsx lines
310-334): also `setShowSuggestions(false)` — the session closes. -/
def insertSuggestion (st : EditorState) (suggestion : Suggestion) : EditorState :=
  { st with text := insertSuggestionText st.text suggestion, showSuggestions := false }

/-- A code unit matched by the JS regexp `/\s/` (all such characters are
single BMP units). -/
def isJsWhitespaceUnit (u : Nat) : Bool :=
  decide (9 ≤ u ∧ u ≤ 13) || decide (u = 32) || decide (u = 0xA0)
    || decide (u = 0x1680) || decide (0x2000 ≤ u ∧ u ≤ 0x200A)
    || decide (u = 0x2028) || decide (u = 0x2029) || decide (u = 0x202F)
    || decide (u = 0x205F) || decide (u = 0x3000) || decide (u = 0xFEFF)

/-- `context.split(/\s/).pop() || ""` (ChatInput.tsx line 259): the
suffix of `context` after its last whitespace unit. -/
def lastWordOf (context : List Nat) : List Nat :=
  (context.reverse.takeWhile (fun u => !isJsWhitespaceUnit u)).reverse

/-- `toLowerCase()` on the ASCII fragment (`u + 32` for `A`-`Z`).  The
source calls full-Unicode `String.prototype.toLowerCase`; the queries and
usernames it is applied to are ASCII, and none of the claims below
depend on the casing of non-ASCII units. -/
def toLowerAscii (l : List Nat) : List Nat :=
  l.map (fun u => if 65 ≤ u ∧ u ≤ 90 then u + 32 else u)

/-- Modelled from the spec: `findEmojiSuggestions` lives in
`lib/emoji.ts`, which is not among the sources.  Spec §4.3: "candidates =
emoji entries (from a static shortcode table) whose shortcode starts
with the remainder"; the static table is taken as a parameter. -/
def findEmojiSuggestions (table : List EmojiSuggestion) (query : List Nat) :
    List EmojiSuggestion :=
  table.filter (fun e => query.isPrefixOf e.shortcode)

/-- The suggestion-recomputation effect (ChatInput.tsx lines 253-281):
from the current word before the caret, rebuild `suggestions` and
`showSuggestions` and reset `activeIndex` to 0.  `usernames` is the
de-duplicated caller-supplied list (line 241), `emojiTable` the static
emoji table. -/
def recomputeSuggestions (usernames : List (List Nat))
    (emojiTable : List EmojiSuggestion) (st : EditorState) : EditorState :=
  let hasExplicitSelection := st.text.selectionStart ≠ st.text.selectionEnd
  let caret := if hasExplicitSelection then
    max st.text.selectionStart st.text.selectionEnd else st.text.selectionEnd
  let context := st.text.value.take caret
  let lastWord := lastWordOf context
  if lastWord.head? = some 64 then       -- lastWord.startsWith("@")
    let query := toLowerAscii (lastWord.drop 1)
    let matched := usernames.filter (fun u => query.isPrefixOf (toLowerAscii u))
    { st with suggestions := matched.map Suggestion.mention,
              showSuggestions := decide (0 < matched.length), activeIndex := 0 }
  else if lastWord.head? = some 58 then  -- lastWord.startsWith(":")
    let query := toLowerAscii (lastWord.drop 1)
    let matched := findEmojiSuggestions emojiTable query
    { st with suggestions := matched.map Suggestion.emoji,
              showSuggestions := decide (0 < matched.length), activeIndex := 0 }
  else
    { st with suggestions := [], showSuggestions := false, activeIndex := 0 }

/-! ### Key event interpreter (ChatInput.tsx lines 389-511) -/

/-- `ChatInputKeyAction` (ChatInput.tsx line 33). -/
inductive ChatInputKeyAction where
  | none
  | submit
  | cancel
deriving DecidableEq, Repr

/-- `handleClipboardShortcut(event)` (ChatInput.tsx lines 389-434).  The
asynchronous clipboard bridge is an oracle: `clipboardRead` is the result
of `invoke("read_clipboard_text")` (`none` = the call failed, caught as
`""`), `writeOk` the fate of `invoke("write_clipboard_text")`, whose
failure the source catches and ignores.  A `none` result means the
source returned `false` (event not consumed); `some st'` means it
returned `true` with the state now `st'`. -/
def handleClipboardShortcut (event : GlobalKeyPayload)
    (clipboardRead : Option (List Nat)) (writeOk : Bool) (st : TextState) :
    Option TextState :=
  -- `if (!isCtrlOrMeta || event.alt || event.phase !== "down") return false;`
  if (event.ctrl = true ∨ event.meta = true) ∧ event.alt = false
      ∧ event.phase = KeyPhase.down then
    let n := toNormalizedRange st.selectionStart st.selectionEnd
    let selectedText := (st.value.take n.2).drop n.1  -- value.slice(start, end)
    if event.code = "KeyA" then
      some (updateSelection st 0 st.value.length)
    else if event.code = "KeyC" then
      if selectedText = [] then some st
      else some st  -- write_clipboard_text(selectedText); failure logged only
    else if event.code = "KeyX" then
      if selectedText = [] then some st
      else some (replaceSelectionWith st [])  -- write attempted first, result ignored
    else if event.code = "KeyV" then
      let clipboard := clipboardRead.getD []  -- `.catch(() => "")`
      if clipboard = [] then some st
      else some (replaceSelectionWith st clipboard)
    else none
  else none

/-- The structural-key and text-production stages of
`handleFocuslessGlobalKey` (ChatInput.tsx lines 443-508): the body of its
`!event.ctrl && !event.meta && !event.alt` branch, split out as its own
definition. -/
def handleStructuralKey (event : GlobalKeyPayload) (st : EditorState) :
    EditorState × ChatInputKeyAction :=
  if event.code = "Escape" then (st, ChatInputKeyAction.cancel)
      else if event.code = "ArrowDown" ∧ st.showSuggestions = true
          ∧ 0 < st.suggestions.length then
        ({ st with activeIndex := (st.activeIndex + 1) % st.suggestions.length },
         ChatInputKeyAction.none)
      else if event.code = "ArrowUp" ∧ st.showSuggestions = true
          ∧ 0 < st.suggestions.length then
        ({ st with activeIndex :=
            if st.activeIndex = 0 then st.suggestions.length - 1
            else st.activeIndex - 1 },
         ChatInputKeyAction.none)
      else if event.code = "Tab" ∧ st.showSuggestions = true
          ∧ 0 < st.suggestions.length then
        match st.suggestions.get? st.activeIndex with
        | some suggestion => (insertSuggestion st suggestion, ChatInputKeyAction.none)
        | Option.none => (st, ChatInputKeyAction.none)  -- unreachable; spec §7
      else if event.code = "Enter" ∨ event.code = "NumpadEnter" then
        (st, ChatInputKeyAction.submit)
      else if event.code = "Backspace" then
        ({ st with text := deleteBackward st.text }, ChatInputKeyAction.none)
      else if event.code = "Delete" then
        ({ st with text := deleteForward st.text }, ChatInputKeyAction.none)
      else if event.code = "ArrowLeft" then
        ({ st with text := moveCaret st.text (-1) event.shift }, ChatInputKeyAction.none)
      else if event.code = "ArrowRight" then
        ({ st with text := moveCaret st.text 1 event.shift }, ChatInputKeyAction.none)
      else if event.code = "Home" then
        ({ st with text := moveCaretToBoundary st.text false event.shift },
         ChatInputKeyAction.none)
      else if event.code = "End" then
        ({ st with text := moveCaretToBoundary st.text true event.shift },
         ChatInputKeyAction.none)
      else match resolveTextFromGlobalEvent event with
      | some t =>
        ({ st with text := replaceSelectionWith st.text t }, ChatInputKeyAction.none)
      | Option.none =>
        match mapPrintableCharacter event.code event.shift with
        | some printable =>
          ({ st with text := replaceSelectionWith st.text printable },
           ChatInputKeyAction.none)
        | Option.none => (st, ChatInputKeyAction.none)

/-- `handleFocuslessGlobalKey(event)` (ChatInput.tsx lines 436-511): the
full per-event dispatch, returning the next component state and the
reported `ChatInputKeyAction`.  The no-modifier structural/text stage is
`handleStructuralKey`. -/
def handleFocuslessGlobalKey (event : GlobalKeyPayload)
    (clipboardRead : Option (List Nat)) (writeOk : Bool) (st : EditorState) :
    EditorState × ChatInputKeyAction :=
  if event.phase ≠ KeyPhase.down then (st, ChatInputKeyAction.none)
  else match handleClipboardShortcut event clipboardRead writeOk st.text with
  | some newText => ({ st with text := newText }, ChatInputKeyAction.none)
  | Option.none =>
    if event.ctrl = false ∧ event.meta = false ∧ event.alt = false then
      handleStructuralKey event st
    else (st, ChatInputKeyAction.none)

/-! ### Basic lemmas -/

lemma clampIdx_le (v : Int) (len : Nat) : clampIdx v len ≤ len := by
  unfold clampIdx clamp
  omega

lemma clampIdx_natCast (n len : Nat) : clampIdx n len = min n len := by
  unfold clampIdx clamp
  omega

lemma clampIdx_of_le {n len : Nat} (h : n ≤ len) : clampIdx n len = n := by
  rw [clampIdx_natCast]
  omega

lemma shiftedNumberMap_printable {code : String} {u : Nat}
    (h : shiftedNumberMap code = some u) : 32 ≤ u ∧ u < 127 := by
  unfold shiftedNumberMap at h
  split at h <;> simp_all <;> omega

lemma shiftedSymbolMap_printable {code : String} {u : Nat}
    (h : shiftedSymbolMap code = some u) : 32 ≤ u ∧ u < 127 := by
  unfold shiftedSymbolMap at h
  split at h <;> simp_all <;> omega

lemma unshiftedSymbolMap_printable {code : String} {u : Nat}
    (h : unshiftedSymbolMap code = some u) : 32 ≤ u ∧ u < 127 := by
  unfold unshiftedSymbolMap at h
  split at h <;> simp_all <;> omega

lemma letterUnit_bounds {code : String} (h : isKeyLetterCode code = true) :
    65 ≤ letterUnit code ∧ letterUnit code ≤ 90 := by
  unfold isKeyLetterCode at h
  split at h
  case _ c heq =>
    unfold letterUnit
    rw [heq]
    simp at h ⊢
    omega
  case _ => simp at h

lemma digitUnit_bounds {code : String} (h : isDigitKeyCode code = true) :
    48 ≤ digitUnit code ∧ digitUnit code ≤ 57 := by
  unfold isDigitKeyCode at h
  split at h
  case _ c heq =>
    unfold digitUnit
    rw [heq]
    simp at h ⊢
    omega
  case _ => simp at h

lemma numpadDigitUnit_bounds {code : String} (h : isNumpadDigitCode code = true) :
    48 ≤ numpadDigitUnit code ∧ numpadDigitUnit code ≤ 57 := by
  unfold isNumpadDigitCode at h
  split at h
  case _ c heq =>
    unfold numpadDigitUnit
    rw [heq]
    simp at h ⊢
    omega
  case _ => simp at h

set_option maxHeartbeats 2000000 in
/-- Every string `mapPrintableCharacter` produces is a single printable
ASCII unit. -/
lemma mapPrintableCharacter_printable {code : String} {shift : Bool} {m : List Nat}
    (h : mapPrintableCharacter code shift = some m) :
    ∃ u, m = [u] ∧ 32 ≤ u ∧ u < 127 := by
  unfold mapPrintableCharacter at h
  split_ifs at h
  all_goals
    first
      | (rcases Option.map_eq_some'.mp h with ⟨u, hu, rfl⟩
         first
           | exact ⟨u, rfl, shiftedNumberMap_printable hu⟩
           | exact ⟨u, rfl, shiftedSymbolMap_printable hu⟩
           | exact ⟨u, rfl, unshiftedSymbolMap_printable hu⟩)
      | (rw [Option.some.injEq] at h
         subst h
         first
           | exact ⟨32, rfl, by omega⟩
           | exact ⟨43, rfl, by omega⟩
           | exact ⟨45, rfl, by omega⟩
           | exact ⟨42, rfl, by omega⟩
           | exact ⟨47, rfl, by omega⟩
           | exact ⟨46, rfl, by omega⟩
           | exact ⟨letterUnit code, rfl,
               by have := letterUnit_bounds (by assumption); omega⟩
           | exact ⟨letterUnit code + 32, rfl,
               by have := letterUnit_bounds (by assumption); omega⟩
           | exact ⟨digitUnit code, rfl,
               by have := digitUnit_bounds (by assumption); omega⟩
           | exact ⟨numpadDigitUnit code, rfl,
               by have := numpadDigitUnit_bounds (by assumption); omega⟩)

lemma hasControlCharacters_single {u : Nat} (h32 : 32 ≤ u) (h127 : u < 127) :
    hasControlCharacters [u] = false := by
  unfold hasControlCharacters
  simp
  omega

lemma hasValidRawText_spec {event : GlobalKeyPayload}
    (h : hasValidRawText event = true) :
    normalizedEventText event ≠ [] ∧
      hasControlCharacters (normalizedEventText event) = false := by
  unfold hasValidRawText at h
  simp at h
  exact ⟨List.ne_nil_of_length_pos h.1, h.2⟩

/-- For every `forceCodeMappedCodes` entry the table resolver produces a
character, for either shift state. -/
lemma forceCodeMapped_isSome :
    ∀ shift : Bool,
      forceCodeMappedCodes.all
        (fun c => (mapPrintableCharacter c shift).isSome) = true := by
  decide

/-! ### C10 — the resolver never yields empty or control text -/

/-- C10: for every global key event, `resolveTextFromGlobalEvent` returns
either `null` or a non-empty string containing no control characters (no
code unit below 0x20 and none equal to 0x7F); the text-production path
can therefore never insert an empty string or a control character into
the buffer. -/
theorem C10_resolveText_none_or_clean (event : GlobalKeyPayload) :
    resolveTextFromGlobalEvent event = Option.none ∨
      ∃ t, resolveTextFromGlobalEvent event = some t ∧ t ≠ [] ∧
        hasControlCharacters t = false := by
  unfold resolveTextFromGlobalEvent
  split_ifs with h1 h2 h3 h4 h5 h6 h7 h8
  · exact Or.inl rfl
  · exact Or.inl rfl
  · exact Or.inl rfl
  · rw [Bool.and_eq_true] at h5
    rcases hasValidRawText_spec h5.1 with ⟨hne, hcc⟩
    exact Or.inr ⟨_, rfl, hne, hcc⟩
  · have hb := letterUnit_bounds h4
    exact Or.inr ⟨_, rfl, by simp,
      hasControlCharacters_single (by omega) (by omega)⟩
  · have hb := letterUnit_bounds h4
    exact Or.inr ⟨_, rfl, by simp,
      hasControlCharacters_single (by omega) (by omega)⟩
  · rw [Bool.and_eq_true] at h7
    rcases h7 with ⟨hsome, _⟩
    rcases Option.isSome_iff_exists.mp hsome with ⟨m, hm⟩
    rcases mapPrintableCharacter_printable hm with ⟨u, rfl, hu1, hu2⟩
    exact Or.inr ⟨[u], hm, by simp, hasControlCharacters_single hu1 hu2⟩
  · exact Or.inl rfl
  · have hv : hasValidRawText event = true := by
      revert h8
      cases hasValidRawText event <;> simp
    rcases hasValidRawText_spec hv with ⟨hne, hcc⟩
    exact Or.inr ⟨_, rfl, hne, hcc⟩

/-! ### C1 — which text wins in the text-production step -/

/-- C1 counterexample: the claim says that for every non-letter key with
present, non-empty, control-free composed text the inserted text equals
the composed text.  For `Digit1` (a `forceCodeMappedCodes` member, e.g.
under the French AZERTY layout, which composes `"&"` on unshifted
`Digit1`) the table resolver wins instead: the resolver returns `"1"`,
not the composed `"&"`. -/
theorem C1_counterexample :
    let event : GlobalKeyPayload :=
      { code := "Digit1", text := some (utf16 "&"), phase := KeyPhase.down,
        ctrl := false, shift := false, alt := false, meta := false }
    isKeyLetterCode event.code = false ∧
      hasValidRawText event = true ∧
      normalizedEventText event = utf16 "&" ∧
      resolveTextFromGlobalEvent event = some (utf16 "1") ∧
      resolveTextFromGlobalEvent event ≠ some (normalizedEventText event) := by
  decide

/-- C1 amended: in the text-production step (key event with no
ctrl/meta/alt whose code is not a non-text key and not an F-key), with
composed text present, non-empty and control-free:
(1) if the code is neither a plain letter key nor a member of
`forceCodeMappedCodes`, the resolved text is the composed text;
(2) for plain letter keys the composed text wins only when it is not a
single ASCII letter, otherwise the table resolver's shift/caps-aware
case wins;
(3) for `forceCodeMappedCodes` members (digit row, US punctuation,
numpad operators and decimal) the table resolver always wins. -/
theorem C1_amended_textProduction :
    (∀ event : GlobalKeyPayload,
        (event.ctrl || event.meta || event.alt) = false →
        nonTextKeyCodes.contains event.code = false →
        isFunctionKeyCode event.code = false →
        isKeyLetterCode event.code = false →
        forceCodeMappedCodes.contains event.code = false →
        hasValidRawText event = true →
        resolveTextFromGlobalEvent event = some (normalizedEventText event)) ∧
    (∀ event : GlobalKeyPayload,
        (event.ctrl || event.meta || event.alt) = false →
        nonTextKeyCodes.contains event.code = false →
        isFunctionKeyCode event.code = false →
        isKeyLetterCode event.code = true →
        (hasValidRawText event = true ∧
            isSingleAsciiLetter (normalizedEventText event) = false →
            resolveTextFromGlobalEvent event = some (normalizedEventText event)) ∧
        (hasValidRawText event = false ∨
            isSingleAsciiLetter (normalizedEventText event) = true →
            resolveTextFromGlobalEvent event =
              (if event.shift != (event.caps == some true)
                then some [letterUnit event.code]
                else some [letterUnit event.code + 32]))) ∧
    (∀ event : GlobalKeyPayload,
        (event.ctrl || event.meta || event.alt) = false →
        nonTextKeyCodes.contains event.code = false →
        isFunctionKeyCode event.code = false →
        isKeyLetterCode event.code = false →
        forceCodeMappedCodes.contains event.code = true →
        resolveTextFromGlobalEvent event =
          mapPrintableCharacter event.code event.shift) := by
  refine ⟨?_, ?_, ?_⟩
  · intro event h1 h2 h3 h4 h5 h6
    have n1 : ¬((event.ctrl || event.meta || event.alt) = true) := by simp [h1]
    have n2 : ¬(nonTextKeyCodes.contains event.code = true) := by rw [h2]; simp
    have n3 : ¬(isFunctionKeyCode event.code = true) := by simp [h3]
    have n4 : ¬(isKeyLetterCode event.code = true) := by simp [h4]
    have n5 : ¬(((mapPrintableCharacter event.code event.shift).isSome &&
        forceCodeMappedCodes.contains event.code) = true) := by rw [h5]; simp
    have n6 : ¬((!hasValidRawText event) = true) := by simp [h6]
    unfold resolveTextFromGlobalEvent
    rw [if_neg n1, if_neg n2, if_neg n3, if_neg n4, if_neg n5, if_neg n6]
  · intro event h1 h2 h3 h4
    have n1 : ¬((event.ctrl || event.meta || event.alt) = true) := by simp [h1]
    have n2 : ¬(nonTextKeyCodes.contains event.code = true) := by rw [h2]; simp
    have n3 : ¬(isFunctionKeyCode event.code = true) := by simp [h3]
    constructor
    · rintro ⟨hv, hs⟩
      have p5 : (hasValidRawText event
          && !isSingleAsciiLetter (normalizedEventText event)) = true := by
        simp [hv, hs]
      unfold resolveTextFromGlobalEvent
      rw [if_neg n1, if_neg n2, if_neg n3, if_pos h4, if_pos p5]
    · intro hd
      have n5 : ¬((hasValidRawText event
          && !isSingleAsciiLetter (normalizedEventText event)) = true) := by
        rcases hd with hv | hs
        · simp [hv]
        · simp [hs]
      unfold resolveTextFromGlobalEvent
      rw [if_neg n1, if_neg n2, if_neg n3, if_pos h4, if_neg n5]
  · intro event h1 h2 h3 h4 h5
    have hmem : event.code ∈ forceCodeMappedCodes := by
      simpa using h5
    have hsome : (mapPrintableCharacter event.code event.shift).isSome = true := by
      simpa using List.all_eq_true.mp (forceCodeMapped_isSome event.shift) _ hmem
    have n1 : ¬((event.ctrl || event.meta || event.alt) = true) := by simp [h1]
    have n2 : ¬(nonTextKeyCodes.contains event.code = true) := by rw [h2]; simp
    have n3 : ¬(isFunctionKeyCode event.code = true) := by simp [h3]
    have n4 : ¬(isKeyLetterCode event.code = true) := by simp [h4]
    have p5 : ((mapPrintableCharacter event.code event.shift).isSome &&
        forceCodeMappedCodes.contains event.code) = true := by
      rw [h5, hsome]
      rfl
    unfold resolveTextFromGlobalEvent
    rw [if_neg n1, if_neg n2, if_neg n3, if_neg n4, if_pos p5]

/-- Witness for the amended C1 at concrete inputs: an `IntlBackslash`
event with composed `"<"` resolves to the composed text; a `KeyA` event
with composed Cyrillic `"ф"` keeps the composed text while one with
composed `"a"` and Shift held resolves to `"A"`; a `Digit1` event with
composed `"&"` resolves to the table's `"1"`. -/
theorem C1_amended_textProduction_witness :
    resolveTextFromGlobalEvent
        { code := "IntlBackslash", text := some (utf16 "<"), phase := KeyPhase.down,
          ctrl := false, shift := false, alt := false, meta := false }
      = some (utf16 "<") ∧
    resolveTextFromGlobalEvent
        { code := "KeyA", text := some (utf16 "ф"), phase := KeyPhase.down,
          ctrl := false, shift := false, alt := false, meta := false }
      = some (utf16 "ф") ∧
    resolveTextFromGlobalEvent
        { code := "KeyA", text := some (utf16 "a"), phase := KeyPhase.down,
          ctrl := false, shift := true, alt := false, meta := false }
      = some [65] ∧
    resolveTextFromGlobalEvent
        { code := "Digit1", text := some (utf16 "&"), phase := KeyPhase.down,
          ctrl := false, shift := false, alt := false, meta := false }
      = some [49] := by
  refine ⟨?_, ?_, ?_, ?_⟩
  · exact C1_amended_textProduction.1 _ (by decide) (by decide) (by decide)
      (by decide) (by decide) (by decide)
  · exact (C1_amended_textProduction.2.1 _ (by decide) (by decide) (by decide)
      (by decide)).1 ⟨by decide, by decide⟩
  · have := (C1_amended_textProduction.2.1
        { code := "KeyA", text := some (utf16 "a"), phase := KeyPhase.down,
          ctrl := false, shift := true, alt := false, meta := false }
        (by decide) (by decide) (by decide) (by decide)).2
      (Or.inr (by decide))
    simpa using this
  · have := C1_amended_textProduction.2.2
      { code := "Digit1", text := some (utf16 "&"), phase := KeyPhase.down,
        ctrl := false, shift := false, alt := false, meta := false }
      (by decide) (by decide) (by decide) (by decide) (by decide)
    simpa using this

lemma applyValueAndSelection_of_le {v : List Nat} {a b : Nat}
    (ha : a ≤ v.length) (hb : b ≤ v.length) :
    applyValueAndSelection v a b = ⟨v, a, b⟩ := by
  unfold applyValueAndSelection
  rw [clampIdx_natCast, clampIdx_natCast]
  simp only [TextState.mk.injEq, true_and]
  omega

/-! ### C2 — insert / delete-backward round trip -/

/-- C2 counterexample: U+1F600 is a single Unicode scalar value whose
UTF-16 encoding occupies two code units, so `replaceSelection` advances
the caret by two while `deleteBackward` removes only one unit.  From the
empty state, inserting it and deleting backward leaves a lone high
surrogate with the caret at 1 — not the original content with the caret
back at 0. -/
theorem C2_counterexample :
    encodeUtf16Char '😀' = [0xD83D, 0xDE00] ∧
    deleteBackward (replaceSelectionWith ⟨[], 0, 0⟩ (encodeUtf16Char '😀'))
      = ⟨[0xD83D], 1, 1⟩ ∧
    deleteBackward (replaceSelectionWith ⟨[], 0, 0⟩ (encodeUtf16Char '😀'))
      ≠ (⟨[], 0, 0⟩ : TextState) := by
  decide

/-- C2 amended: for every well-formed `TextState` with a collapsed
selection at `p` and every string `s` of exactly one UTF-16 code unit
(equivalently, one scalar value of the Basic Multilingual Plane),
`replaceSelection s` followed by `deleteBackward()` restores the
original content with the caret back at `p`. -/
theorem C2_roundTrip (st : TextState) (u : Nat)
    (hcol : st.selectionStart = st.selectionEnd)
    (hle : st.selectionEnd ≤ st.value.length) :
    deleteBackward (replaceSelectionWith st [u]) = st := by
  obtain ⟨v, s, e⟩ := st
  dsimp only at hcol hle
  subst hcol
  have htake : (v.take s).length = s := by
    simp
    omega
  have hlen : (v.take s ++ [u] ++ v.drop s).length = v.length + 1 := by
    simp
    omega
  have hstep : replaceSelectionWith ⟨v, s, s⟩ [u]
      = ⟨v.take s ++ [u] ++ v.drop s, s + 1, s + 1⟩ := by
    simp only [replaceSelectionWith, toNormalizedRange, min_self, max_self,
      List.length_singleton]
    exact applyValueAndSelection_of_le (by omega) (by omega)
  rw [hstep]
  have hA : (v.take s ++ [u] ++ v.drop s).take s = v.take s := by
    rw [List.append_assoc]
    exact List.take_left' htake
  have hB : (v.take s ++ [u] ++ v.drop s).drop (s + 1) = v.drop s := by
    have hlen : (v.take s ++ [u]).length = s + 1 := by simp [htake]
    exact List.drop_left' hlen
  unfold deleteBackward toNormalizedRange applyValueAndSelection
  simp only [min_self, max_self, Nat.add_sub_cancel, ne_eq]
  rw [if_neg (by simp), if_neg (by omega)]
  rw [hA, hB, List.take_append_drop]
  simp [clampIdx_natCast]
  omega

/-- Witness for the amended C2: inserting `"c"` into `"ab"` at caret 1
and deleting backward restores `"ab"` with caret 1. -/
theorem C2_roundTrip_witness :
    deleteBackward (replaceSelectionWith ⟨utf16 "ab", 1, 1⟩ [99])
      = ⟨utf16 "ab", 1, 1⟩ :=
  C2_roundTrip ⟨utf16 "ab", 1, 1⟩ 99 (by decide) (by decide)

/-! ### C3 — selection offsets stay clamped -/

lemma selectionInBounds_apply (v : List Nat) (a b : Nat) :
    SelectionInBounds (applyValueAndSelection v a b) :=
  ⟨clampIdx_le _ _, clampIdx_le _ _⟩

lemma selectionInBounds_update (st : TextState) (a b : Int) :
    SelectionInBounds (updateSelection st a b) :=
  ⟨clampIdx_le _ _, clampIdx_le _ _⟩

/-- C3: after every mutating operation both selection offsets lie in
`[0, length(content)]` of the resulting state (offsets are `Nat`, so
the lower bound is inherent).  The operations that clamp on every path
(`updateSelection`, `replaceSelectionWith`, `moveCaret`,
`moveCaretToBoundary`, `selectAll`, `insertSuggestionText`) satisfy this
for arbitrary input states; the two delete operations have early-return
branches that keep the state unchanged and therefore preserve it from a
well-formed input. -/
theorem C3_selectionClamped :
    (∀ (st : TextState) (start stop : Int),
        SelectionInBounds (updateSelection st start stop)) ∧
    (∀ (st : TextState) (t : List Nat),
        SelectionInBounds (replaceSelectionWith st t)) ∧
    (∀ st : TextState, SelectionInBounds st →
        SelectionInBounds (deleteBackward st)) ∧
    (∀ st : TextState, SelectionInBounds st →
        SelectionInBounds (deleteForward st)) ∧
    (∀ (st : TextState) (delta : Int) (extend : Bool),
        SelectionInBounds (moveCaret st delta extend)) ∧
    (∀ (st : TextState) (toEnd extend : Bool),
        SelectionInBounds (moveCaretToBoundary st toEnd extend)) ∧
    (∀ st : TextState, SelectionInBounds (selectAll st)) ∧
    (∀ (st : TextState) (suggestion : Suggestion),
        SelectionInBounds (insertSuggestionText st suggestion)) := by
  refine ⟨?_, ?_, ?_, ?_, ?_, ?_, ?_, ?_⟩
  · intro st start stop
    exact selectionInBounds_update st start stop
  · intro st t
    unfold replaceSelectionWith
    apply selectionInBounds_apply
  · intro st h
    simp only [deleteBackward]
    split_ifs
    · unfold replaceSelectionWith
      apply selectionInBounds_apply
    · exact h
    · apply selectionInBounds_apply
  · intro st h
    simp only [deleteForward]
    split_ifs
    · unfold replaceSelectionWith
      apply selectionInBounds_apply
    · exact h
    · apply selectionInBounds_apply
  · intro st delta extend
    simp only [moveCaret]
    split_ifs <;> apply selectionInBounds_update
  · intro st toEnd extend
    simp only [moveCaretToBoundary]
    split_ifs <;> apply selectionInBounds_update
  · intro st
    unfold selectAll
    apply selectionInBounds_update
  · intro st suggestion
    unfold insertSuggestionText
    apply selectionInBounds_apply

/-- Witness for the hypotheses of C3's two delete conjuncts at a
concrete well-formed state. -/
theorem C3_selectionClamped_witness :
    SelectionInBounds (deleteBackward ⟨utf16 "ab", 1, 1⟩) ∧
    SelectionInBounds (deleteForward ⟨utf16 "ab", 1, 1⟩) :=
  ⟨C3_selectionClamped.2.2.1 _ (by decide),
   C3_selectionClamped.2.2.2.1 _ (by decide)⟩

/-! ### C4 — moveCaret semantics -/

/-- C4: `moveCaret` on a well-formed state: with a non-empty selection
and `extend = false` it collapses to the minimum edge for `delta < 0`
and to the maximum edge for `delta > 0`, without additionally moving by
`delta`; with a collapsed selection and `extend = false` both offsets
move to `clamp(selectionEnd + delta)`; with `extend = true` only
`selectionEnd` moves (clamped), `selectionStart` stays. -/
theorem C4_moveCaret (st : TextState) (delta : Int)
    (hwf : SelectionInBounds st) :
    (st.selectionStart ≠ st.selectionEnd → delta < 0 →
        moveCaret st delta false =
          { st with
            selectionStart := min st.selectionStart st.selectionEnd
            selectionEnd := min st.selectionStart st.selectionEnd }) ∧
    (st.selectionStart ≠ st.selectionEnd → 0 < delta →
        moveCaret st delta false =
          { st with
            selectionStart := max st.selectionStart st.selectionEnd
            selectionEnd := max st.selectionStart st.selectionEnd }) ∧
    (st.selectionStart = st.selectionEnd →
        moveCaret st delta false =
          { st with
            selectionStart := clampIdx ((st.selectionEnd : Int) + delta) st.value.length
            selectionEnd := clampIdx ((st.selectionEnd : Int) + delta) st.value.length }) ∧
    (moveCaret st delta true =
        { st with
          selectionEnd := clampIdx ((st.selectionEnd : Int) + delta) st.value.length }) := by
  obtain ⟨v, s, e⟩ := st
  obtain ⟨hw1, hw2⟩ := hwf
  dsimp only at hw1 hw2 ⊢
  refine ⟨?_, ?_, ?_, ?_⟩
  · intro hne hneg
    have hnn : ¬(delta < 0) → False := fun h => h hneg
    simp only [moveCaret, toNormalizedRange, Bool.false_eq_true, if_false,
      updateSelection]
    rw [if_pos hne, if_pos hneg]
    have hm : min s e ≤ v.length := le_trans (min_le_left _ _) hw1
    simp only [TextState.mk.injEq, true_and, clampIdx_natCast]
    omega
  · intro hne hpos
    have hnneg : ¬(delta < 0) := by omega
    simp only [moveCaret, toNormalizedRange, Bool.false_eq_true, if_false,
      updateSelection]
    rw [if_pos hne, if_neg hnneg]
    simp only [TextState.mk.injEq, true_and, clampIdx_natCast]
    omega
  · intro hcol
    subst hcol
    simp only [moveCaret, toNormalizedRange, Bool.false_eq_true, if_false,
      updateSelection, ne_eq, not_true_eq_false, max_self]
    have hcl := clampIdx_le ((s : Int) + delta) v.length
    simp only [TextState.mk.injEq, true_and, clampIdx_natCast]
    omega
  · simp only [moveCaret]
    rw [if_pos trivial]
    have hcl := clampIdx_le ((e : Int) + delta) v.length
    simp only [updateSelection, TextState.mk.injEq, true_and, clampIdx_natCast]
    omega

/-- Witness for C4 at concrete inputs: on `"abc"` with selection (2,1),
`ArrowLeft` collapses to 1 and `ArrowRight` collapses to 2; with caret
(1,1) a plain move lands at 2; an extension from (2,1) moves only the
end to 2. -/
theorem C4_moveCaret_witness :
    moveCaret ⟨utf16 "abc", 2, 1⟩ (-1) false = ⟨utf16 "abc", 1, 1⟩ ∧
    moveCaret ⟨utf16 "abc", 2, 1⟩ 1 false = ⟨utf16 "abc", 2, 2⟩ ∧
    moveCaret ⟨utf16 "abc", 1, 1⟩ 1 false = ⟨utf16 "abc", 2, 2⟩ ∧
    moveCaret ⟨utf16 "abc", 2, 1⟩ 1 true = ⟨utf16 "abc", 2, 2⟩ := by
  have h1 := (C4_moveCaret ⟨utf16 "abc", 2, 1⟩ (-1) (by decide)).1
    (by decide) (by decide)
  have h2 := (C4_moveCaret ⟨utf16 "abc", 2, 1⟩ 1 (by decide)).2.1
    (by decide) (by decide)
  have h3 := (C4_moveCaret ⟨utf16 "abc", 1, 1⟩ 1 (by decide)).2.2.1 (by decide)
  have h4 := (C4_moveCaret ⟨utf16 "abc", 2, 1⟩ 1 (by decide)).2.2.2
  refine ⟨by rw [h1]; decide, by rw [h2]; decide, by rw [h3]; decide,
    by rw [h4]; decide⟩

/-! ### C5 — suggestion insertion -/

/-- `l.lastIndexOf(a)` over an appended last element. -/
lemma jsLastIndexOf_append_singleton (l : List Nat) (a u : Nat) :
    jsLastIndexOf (l ++ [a]) u =
      if a = u then (l.length : Int) else jsLastIndexOf l u := by
  unfold jsLastIndexOf
  rw [List.reverse_append]
  simp only [List.reverse_singleton, List.singleton_append, List.length_append,
    List.length_singleton]
  rw [List.findIdx?_cons, List.findIdx?_succ]
  by_cases h : a = u
  · rw [if_pos (by simp [h]), if_pos h]
    simp
  · rw [if_neg (by simp [h]), if_neg h]
    cases List.findIdx? (fun v => decide (v = u)) l.reverse with
    | none => simp
    | some i =>
      simp only [Option.map_some', Option.getD_some]
      push_cast
      ring

/-- `l.lastIndexOf(a)` is below the length. -/
lemma jsLastIndexOf_lt_length (l : List Nat) (u : Nat) :
    jsLastIndexOf l u < (l.length : Int) := by
  unfold jsLastIndexOf
  cases List.findIdx? (fun v => decide (v = u)) l.reverse with
  | none =>
    simp only [Option.map_none', Option.getD_none]
    have : (0 : Int) ≤ (l.length : Int) := by positivity
    omega
  | some i =>
    simp only [Option.map_some', Option.getD_some]
    omega

/-- The code's "start of the current word" (ChatInput.tsx lines
315-320): the position just after the last space (32), tab (9) or
newline (10) before the caret, or 0.  This scans a strictly NARROWER
whitespace class than the `/\s/` class the trigger detection splits on
(line 259, embedded as `isJsWhitespaceUnit`); see `specWordStart` for
the claim's reading and `C5_counterexample` for where they diverge. -/
def codeWordStart (before : List Nat) : Nat :=
  before.length -
    (before.reverse.takeWhile (fun u => !(u == 32 || u == 9 || u == 10))).length

/-- The claim's "position after the nearest whitespace before the
caret", with whitespace the JS `/\s/` class — the same class the
suggestion trigger uses, so this is `before.length` minus the length of
the trigger's "current word" (`lastWordOf`). -/
def specWordStart (before : List Nat) : Nat :=
  before.length - (lastWordOf before).length

lemma codeWordStart_le (before : List Nat) :
    codeWordStart before ≤ before.length :=
  Nat.sub_le _ _

/-- The source's `Math.max` of three `lastIndexOf`s plus one computes
exactly a backward scan for the nearest space, tab or newline. -/
lemma wordStart_eq_codeWordStart (before : List Nat) :
    ((max (jsLastIndexOf before 32)
        (max (jsLastIndexOf before 9) (jsLastIndexOf before 10))) + 1).toNat
      = codeWordStart before := by
  induction before using List.reverseRecOn with
  | nil => decide
  | append_singleton l a ih =>
    rw [jsLastIndexOf_append_singleton, jsLastIndexOf_append_singleton,
      jsLastIndexOf_append_singleton]
    unfold codeWordStart
    rw [List.reverse_append]
    simp only [List.reverse_singleton, List.singleton_append, List.length_append,
      List.length_singleton, List.takeWhile_cons]
    by_cases hws : a = 32 ∨ a = 9 ∨ a = 10
    · have hcond : (!(a == 32 || a == 9 || a == 10)) = false := by
        rcases hws with h | h | h <;> simp [h]
      rw [hcond]
      simp only [Bool.false_eq_true, if_false, List.length_nil]
      have b32 := jsLastIndexOf_lt_length l 32
      have b9 := jsLastIndexOf_lt_length l 9
      have b10 := jsLastIndexOf_lt_length l 10
      rcases hws with h | h | h <;>
        · subst h
          rw [if_pos rfl]
          try rw [if_neg (by omega)]
          try rw [if_neg (by omega)]
          omega
    · push_neg at hws
      obtain ⟨hn32, hn9, hn10⟩ := hws
      have hcond : (!(a == 32 || a == 9 || a == 10)) = true := by
        simp [hn32, hn9, hn10]
      rw [hcond]
      rw [if_neg hn32, if_neg hn9, if_neg hn10]
      simp only [if_true]
      have hk :=
        (List.takeWhile_sublist (fun u => !(u == 32 || u == 9 || u == 10))
          (l := l.reverse)).length_le
      rw [List.length_reverse] at hk
      unfold codeWordStart at ih
      rw [ih]
      simp only [List.length_cons]
      omega

/-- C5 counterexample: the claim reads "the position after the nearest
whitespace before the caret", and the whitespace class that this
engine's own trigger detection uses is JS `/\s/`.  On the reachable
content `"x"` + U+00A0 (no-break space, a `/\s/` match) + `"@al"` with
the caret at the end, the trigger's current word is `"@al"` (so the
mention session is active) and the claim places the word start at
offset 2 — but the code scans only for space/tab/newline, finds none,
and replaces from offset 0, producing `"@alice "` and destroying
`"x"` + U+00A0. -/
theorem C5_counterexample :
    let st : TextState := ⟨[120, 160, 64, 97, 108], 5, 5⟩
    isJsWhitespaceUnit 160 = true ∧
    lastWordOf st.value = utf16 "@al" ∧
    specWordStart st.value = 2 ∧
    insertSuggestionText st (Suggestion.mention (utf16 "alice"))
      = ⟨utf16 "@alice ", 7, 7⟩ ∧
    insertSuggestionText st (Suggestion.mention (utf16 "alice"))
      ≠ ⟨[120, 160] ++ utf16 "@alice ", 9, 9⟩ := by
  decide

/-- C5 amended: inserting a suggestion into a well-formed collapsed
state replaces the text from the code's word start — the position after
the nearest space, tab or newline before the caret (NOT the full JS
`/\s/` whitespace class the trigger detection uses), or the buffer
start — through the caret with `@username` or the emoji glyph followed
by one space (unit 32), collapses the caret to just after the inserted
text, and closes the suggestion session; in particular `Mention "alice"`
inserted into `"hello @al"` with the caret at the end yields
`"hello @alice "` with the caret at 13. -/
theorem C5_insertSuggestion :
    (∀ (st : TextState) (suggestion : Suggestion),
        st.selectionStart = st.selectionEnd →
        st.selectionEnd ≤ st.value.length →
        insertSuggestionText st suggestion =
          ⟨(st.value.take st.selectionEnd).take
              (codeWordStart (st.value.take st.selectionEnd))
            ++ suggestionReplacement suggestion ++ [32]
            ++ st.value.drop st.selectionEnd,
           codeWordStart (st.value.take st.selectionEnd)
             + (suggestionReplacement suggestion).length + 1,
           codeWordStart (st.value.take st.selectionEnd)
             + (suggestionReplacement suggestion).length + 1⟩) ∧
    (∀ (es : EditorState) (suggestion : Suggestion),
        (insertSuggestion es suggestion).showSuggestions = false) ∧
    insertSuggestionText ⟨utf16 "hello @al", 9, 9⟩
        (Suggestion.mention (utf16 "alice"))
      = ⟨utf16 "hello @alice ", 13, 13⟩ := by
  refine ⟨?_, fun es suggestion => rfl, by decide⟩
  intro st suggestion hcol hle
  obtain ⟨v, s, e⟩ := st
  dsimp only at hcol hle ⊢
  subst hcol
  simp only [insertSuggestionText, toNormalizedRange, min_self, max_self]
  rw [wordStart_eq_codeWordStart]
  have hws := codeWordStart_le (v.take s)
  have htl : ((v.take s).take (codeWordStart (v.take s))).length
      = codeWordStart (v.take s) := by
    have h1 := codeWordStart_le (v.take s)
    simp only [List.length_take] at h1 ⊢
    omega
  rw [applyValueAndSelection_of_le (by simp) (by simp)]
  simp only [TextState.mk.injEq]
  refine ⟨by simp [List.append_assoc], ?_, ?_⟩ <;>
    · simp only [List.length_append, List.length_singleton, htl]
      try omega

/-- Witness exercising C5's quantified part at the concrete example. -/
theorem C5_insertSuggestion_witness :
    insertSuggestionText ⟨utf16 "hello @al", 9, 9⟩
        (Suggestion.mention (utf16 "alice"))
      = ⟨utf16 "hello @alice ", 13, 13⟩ := by
  have h := C5_insertSuggestion.1 ⟨utf16 "hello @al", 9, 9⟩
    (Suggestion.mention (utf16 "alice")) (by decide) (by decide)
  rw [h]
  decide

/-! ### C9 — maxLength is never enforced on the buffer -/

/-- `value.trim()` (ChatInput.tsx line 529), JS whitespace both ends. -/
def jsTrim (l : List Nat) : List Nat :=
  ((l.dropWhile isJsWhitespaceUnit).reverse.dropWhile isJsWhitespaceUnit).reverse

/-- `remainingChars = maxLength - value.trim().length`
(ChatInput.tsx lines 529-530); it feeds only the rendered counter
(line 694) and the `isOverLimit` colour flag (line 531). -/
def remainingChars (maxLength : Nat) (value : List Nat) : Int :=
  (maxLength : Int) - ((jsTrim value).length : Int)

lemma jsTrim_replicate97 (n : Nat) :
    jsTrim (List.replicate n 97) = List.replicate n 97 := by
  have hdw : ∀ k : Nat,
      (List.replicate k 97).dropWhile isJsWhitespaceUnit
        = List.replicate k 97 := by
    intro k
    cases k with
    | zero => rfl
    | succ j =>
      rw [List.replicate_succ, List.dropWhile_cons, if_neg (by decide),
        ← List.replicate_succ]
  unfold jsTrim
  rw [hdw, List.reverse_replicate, hdw, List.reverse_replicate]

/-- C9: no editing operation enforces `maxLength` — `replaceSelection`
(hence typing, paste and suggestion insertion, which all funnel through
it) splices the full inserted text into the buffer regardless of any
limit (none of the edit operations even receives `maxLength`), so the
buffer can exceed any limit, at which point only the rendered
`remainingChars` counter goes negative. -/
theorem C9_noMaxLengthTruncation :
    (∀ (st : TextState) (insertText : List Nat),
        (replaceSelectionWith st insertText).value =
          st.value.take (min st.selectionStart st.selectionEnd) ++ insertText
            ++ st.value.drop (max st.selectionStart st.selectionEnd)) ∧
    (∀ maxLength : Nat,
        maxLength <
          (replaceSelectionWith ⟨[], 0, 0⟩
            (List.replicate (maxLength + 1) 97)).value.length ∧
        remainingChars maxLength
          (replaceSelectionWith ⟨[], 0, 0⟩
            (List.replicate (maxLength + 1) 97)).value < 0) := by
  constructor
  · intro st insertText
    rfl
  · intro maxLength
    have hval : (replaceSelectionWith ⟨[], 0, 0⟩
        (List.replicate (maxLength + 1) 97)).value
        = List.replicate (maxLength + 1) 97 := by
      simp [replaceSelectionWith, toNormalizedRange, applyValueAndSelection]
    rw [hval]
    constructor
    · simp
    · unfold remainingChars
      rw [jsTrim_replicate97, List.length_replicate]
      push_cast
      omega

/-! ### C6 / C7 — clipboard shortcuts and structural keys -/

lemma handleClipboardShortcut_none_of_noMods {event : GlobalKeyPayload}
    (clipboardRead : Option (List Nat)) (writeOk : Bool) (st : TextState)
    (hctrl : event.ctrl = false) (hmeta : event.meta = false) :
    handleClipboardShortcut event clipboardRead writeOk st = Option.none := by
  unfold handleClipboardShortcut
  rw [if_neg]
  rintro ⟨hcm, -, -⟩
  rcases hcm with h | h
  · rw [hctrl] at h; cases h
  · rw [hmeta] at h; cases h

lemma handleFocusless_of_clipboard_some {event : GlobalKeyPayload}
    {clipboardRead : Option (List Nat)} {writeOk : Bool} {st : EditorState}
    {newText : TextState}
    (hphase : event.phase = KeyPhase.down)
    (h : handleClipboardShortcut event clipboardRead writeOk st.text
      = some newText) :
    handleFocuslessGlobalKey event clipboardRead writeOk st
      = ({ st with text := newText }, ChatInputKeyAction.none) := by
  unfold handleFocuslessGlobalKey
  rw [if_neg (by simp [hphase]), h]

lemma clipboardShortcut_guard {event : GlobalKeyPayload}
    (hphase : event.phase = KeyPhase.down)
    (hcm : event.ctrl = true ∨ event.meta = true) (halt : event.alt = false) :
    ((event.ctrl = true ∨ event.meta = true) ∧ event.alt = false
      ∧ event.phase = KeyPhase.down) :=
  ⟨hcm, halt, hphase⟩

lemma handleClipboardShortcut_keyA {event : GlobalKeyPayload}
    (clipboardRead : Option (List Nat)) (writeOk : Bool) (st : TextState)
    (hphase : event.phase = KeyPhase.down)
    (hcm : event.ctrl = true ∨ event.meta = true) (halt : event.alt = false)
    (hcode : event.code = "KeyA") :
    handleClipboardShortcut event clipboardRead writeOk st
      = some (selectAll st) := by
  simp only [handleClipboardShortcut]
  rw [if_pos (clipboardShortcut_guard hphase hcm halt), if_pos hcode]
  rfl

lemma handleClipboardShortcut_keyC {event : GlobalKeyPayload}
    (clipboardRead : Option (List Nat)) (writeOk : Bool) (st : TextState)
    (hphase : event.phase = KeyPhase.down)
    (hcm : event.ctrl = true ∨ event.meta = true) (halt : event.alt = false)
    (hcode : event.code = "KeyC") :
    handleClipboardShortcut event clipboardRead writeOk st = some st := by
  simp only [handleClipboardShortcut]
  rw [if_pos (clipboardShortcut_guard hphase hcm halt),
    if_neg (by rw [hcode]; decide), if_pos hcode, ite_self]

lemma handleClipboardShortcut_keyX {event : GlobalKeyPayload}
    (clipboardRead : Option (List Nat)) (writeOk : Bool) (st : TextState)
    (hphase : event.phase = KeyPhase.down)
    (hcm : event.ctrl = true ∨ event.meta = true) (halt : event.alt = false)
    (hcode : event.code = "KeyX")
    (hsel : (st.value.take (max st.selectionStart st.selectionEnd)).drop
      (min st.selectionStart st.selectionEnd) ≠ []) :
    handleClipboardShortcut event clipboardRead writeOk st
      = some (replaceSelectionWith st []) := by
  simp only [handleClipboardShortcut, toNormalizedRange]
  rw [if_pos (clipboardShortcut_guard hphase hcm halt),
    if_neg (by rw [hcode]; decide), if_neg (by rw [hcode]; decide),
    if_pos hcode, if_neg hsel]

lemma handleClipboardShortcut_keyV_empty {event : GlobalKeyPayload}
    (clipboardRead : Option (List Nat)) (writeOk : Bool) (st : TextState)
    (hphase : event.phase = KeyPhase.down)
    (hcm : event.ctrl = true ∨ event.meta = true) (halt : event.alt = false)
    (hcode : event.code = "KeyV")
    (hclip : clipboardRead = Option.none ∨ clipboardRead = some []) :
    handleClipboardShortcut event clipboardRead writeOk st = some st := by
  simp only [handleClipboardShortcut]
  rw [if_pos (clipboardShortcut_guard hphase hcm halt),
    if_neg (by rw [hcode]; decide), if_neg (by rw [hcode]; decide),
    if_neg (by rw [hcode]; decide), if_pos hcode]
  rcases hclip with h | h <;> rw [h] <;> rfl

lemma handleClipboardShortcut_keyV_text {event : GlobalKeyPayload}
    (writeOk : Bool) (st : TextState) (clipboard : List Nat)
    (hphase : event.phase = KeyPhase.down)
    (hcm : event.ctrl = true ∨ event.meta = true) (halt : event.alt = false)
    (hcode : event.code = "KeyV") (hne : clipboard ≠ []) :
    handleClipboardShortcut event (some clipboard) writeOk st
      = some (replaceSelectionWith st clipboard) := by
  simp only [handleClipboardShortcut]
  rw [if_pos (clipboardShortcut_guard hphase hcm halt),
    if_neg (by rw [hcode]; decide), if_neg (by rw [hcode]; decide),
    if_neg (by rw [hcode]; decide), if_pos hcode]
  simp [hne]

/-- C6: every key-down with ctrl or meta held, alt not held and code
`KeyA`/`KeyC`/`KeyX`/`KeyV` is consumed (outcome "none") regardless of
the clipboard bridge's success or failure (both `writeOk` values and
every `clipboardRead` result); select-all selects everything, copy with
an empty selection leaves the state unchanged, cut deletes the selection
even when the clipboard write fails, and paste leaves the state
unchanged when the read fails or yields the empty string. -/
theorem C6_clipboardShortcuts :
    ∀ (event : GlobalKeyPayload) (clipboardRead : Option (List Nat))
      (writeOk : Bool) (st : EditorState),
      event.phase = KeyPhase.down →
      (event.ctrl = true ∨ event.meta = true) →
      event.alt = false →
      (event.code = "KeyA" ∨ event.code = "KeyC" ∨ event.code = "KeyX"
        ∨ event.code = "KeyV") →
      (handleFocuslessGlobalKey event clipboardRead writeOk st).2
          = ChatInputKeyAction.none ∧
      (event.code = "KeyA" →
        (handleFocuslessGlobalKey event clipboardRead writeOk st).1
          = { st with text := selectAll st.text }) ∧
      (event.code = "KeyC" →
        (handleFocuslessGlobalKey event clipboardRead writeOk st).1 = st) ∧
      (event.code = "KeyX" →
        (st.text.value.take
            (max st.text.selectionStart st.text.selectionEnd)).drop
          (min st.text.selectionStart st.text.selectionEnd) ≠ [] →
        (handleFocuslessGlobalKey event clipboardRead writeOk st).1
          = { st with text := replaceSelectionWith st.text [] }) ∧
      (event.code = "KeyV" →
        (clipboardRead = Option.none ∨ clipboardRead = some []) →
        (handleFocuslessGlobalKey event clipboardRead writeOk st).1 = st) := by
  intro event clipboardRead writeOk st hphase hcm halt hcode
  rcases hcode with hc | hc | hc | hc
  all_goals refine ⟨?_, ?_, ?_, ?_, ?_⟩
  -- KeyA
  · rw [handleFocusless_of_clipboard_some hphase
      (handleClipboardShortcut_keyA _ _ _ hphase hcm halt hc)]
  · intro _
    rw [handleFocusless_of_clipboard_some hphase
      (handleClipboardShortcut_keyA _ _ _ hphase hcm halt hc)]
  · intro h; rw [hc] at h; exact absurd h (by decide)
  · intro h; rw [hc] at h; exact absurd h (by decide)
  · intro h; rw [hc] at h; exact absurd h (by decide)
  -- KeyC
  · rw [handleFocusless_of_clipboard_some hphase
      (handleClipboardShortcut_keyC _ _ _ hphase hcm halt hc)]
  · intro h; rw [hc] at h; exact absurd h (by decide)
  · intro _
    rw [handleFocusless_of_clipboard_some hphase
      (handleClipboardShortcut_keyC _ _ _ hphase hcm halt hc)]
  · intro h; rw [hc] at h; exact absurd h (by decide)
  · intro h; rw [hc] at h; exact absurd h (by decide)
  -- KeyX
  · by_cases hsel : (st.text.value.take
        (max st.text.selectionStart st.text.selectionEnd)).drop
        (min st.text.selectionStart st.text.selectionEnd) = []
    · have hx : handleClipboardShortcut event clipboardRead writeOk st.text
          = some st.text := by
        simp only [handleClipboardShortcut, toNormalizedRange]
        rw [if_pos (clipboardShortcut_guard hphase hcm halt),
          if_neg (by rw [hc]; decide), if_neg (by rw [hc]; decide),
          if_pos hc, if_pos hsel]
      rw [handleFocusless_of_clipboard_some hphase hx]
    · rw [handleFocusless_of_clipboard_some hphase
        (handleClipboardShortcut_keyX _ _ _ hphase hcm halt hc hsel)]
  · intro h; rw [hc] at h; exact absurd h (by decide)
  · intro h; rw [hc] at h; exact absurd h (by decide)
  · intro _ hsel
    rw [handleFocusless_of_clipboard_some hphase
      (handleClipboardShortcut_keyX _ _ _ hphase hcm halt hc hsel)]
  · intro h; rw [hc] at h; exact absurd h (by decide)
  -- KeyV
  · rcases hclip : clipboardRead with _ | cb
    · rw [handleFocusless_of_clipboard_some hphase
        (handleClipboardShortcut_keyV_empty _ _ _ hphase hcm halt hc
          (Or.inl rfl))]
    · by_cases hcb : cb = []
      · subst hcb
        rw [handleFocusless_of_clipboard_some hphase
          (handleClipboardShortcut_keyV_empty _ _ _ hphase hcm halt hc
            (Or.inr rfl))]
      · rw [handleFocusless_of_clipboard_some hphase
          (handleClipboardShortcut_keyV_text _ _ _ hphase hcm halt hc hcb)]
  · intro h; rw [hc] at h; exact absurd h (by decide)
  · intro h; rw [hc] at h; exact absurd h (by decide)
  · intro h; rw [hc] at h; exact absurd h (by decide)
  · intro _ hclip
    rcases hclip with h | h <;>
      · subst h
        rw [handleFocusless_of_clipboard_some hphase
          (handleClipboardShortcut_keyV_empty _ _ _ hphase hcm halt hc
            (by simp))]

/-- Witness for C6: Ctrl+C with an empty selection and a failing write,
Ctrl+X with a non-empty selection and a failing write, and Ctrl+V with a
failed clipboard read, all on `"ab"`. -/
theorem C6_clipboardShortcuts_witness :
    (handleFocuslessGlobalKey
        { code := "KeyC", phase := KeyPhase.down, ctrl := true, shift := false,
          alt := false, meta := false }
        Option.none false ⟨⟨utf16 "ab", 1, 1⟩, [], false, 0⟩).1
      = ⟨⟨utf16 "ab", 1, 1⟩, [], false, 0⟩ ∧
    (handleFocuslessGlobalKey
        { code := "KeyX", phase := KeyPhase.down, ctrl := true, shift := false,
          alt := false, meta := false }
        Option.none false ⟨⟨utf16 "ab", 0, 2⟩, [], false, 0⟩).1
      = ⟨replaceSelectionWith ⟨utf16 "ab", 0, 2⟩ [], [], false, 0⟩ ∧
    (handleFocuslessGlobalKey
        { code := "KeyV", phase := KeyPhase.down, ctrl := true, shift := false,
          alt := false, meta := false }
        Option.none false ⟨⟨utf16 "ab", 1, 1⟩, [], false, 0⟩).1
      = ⟨⟨utf16 "ab", 1, 1⟩, [], false, 0⟩ := by
  refine ⟨?_, ?_, ?_⟩
  · exact (C6_clipboardShortcuts _ _ _ _ rfl (Or.inl rfl) rfl
      (Or.inr (Or.inl rfl))).2.2.1 rfl
  · exact (C6_clipboardShortcuts _ _ _ _ rfl (Or.inl rfl) rfl
      (Or.inr (Or.inr (Or.inl rfl)))).2.2.2.1 rfl (by decide)
  · exact (C6_clipboardShortcuts _ _ _ _ rfl (Or.inl rfl) rfl
      (Or.inr (Or.inr (Or.inr rfl)))).2.2.2.2 rfl (Or.inl rfl)

lemma handleFocusless_structural {event : GlobalKeyPayload}
    (clipboardRead : Option (List Nat)) (writeOk : Bool) (st : EditorState)
    (hphase : event.phase = KeyPhase.down)
    (hctrl : event.ctrl = false) (hmeta : event.meta = false)
    (halt : event.alt = false) :
    handleFocuslessGlobalKey event clipboardRead writeOk st
      = handleStructuralKey event st := by
  unfold handleFocuslessGlobalKey
  rw [if_neg (by simp [hphase]),
    handleClipboardShortcut_none_of_noMods clipboardRead writeOk st.text
      hctrl hmeta]
  show (if event.ctrl = false ∧ event.meta = false ∧ event.alt = false
      then handleStructuralKey event st
      else (st, ChatInputKeyAction.none)) = handleStructuralKey event st
  rw [if_pos ⟨hctrl, hmeta, halt⟩]

/-- C7: a key-down with no ctrl/meta/alt and code `Enter`/`NumpadEnter`
returns outcome "submit", and `Escape` returns "cancel", leaving the
whole state (content, both selection offsets, suggestion session)
unchanged. -/
theorem C7_submitCancel :
    ∀ (event : GlobalKeyPayload) (clipboardRead : Option (List Nat))
      (writeOk : Bool) (st : EditorState),
      event.phase = KeyPhase.down →
      event.ctrl = false → event.meta = false → event.alt = false →
      ((event.code = "Enter" ∨ event.code = "NumpadEnter") →
        handleFocuslessGlobalKey event clipboardRead writeOk st
          = (st, ChatInputKeyAction.submit)) ∧
      (event.code = "Escape" →
        handleFocuslessGlobalKey event clipboardRead writeOk st
          = (st, ChatInputKeyAction.cancel)) := by
  intro event clipboardRead writeOk st hphase hctrl hmeta halt
  rw [handleFocusless_structural clipboardRead writeOk st hphase hctrl hmeta halt]
  constructor
  · intro hcode
    have hne : event.code ≠ "Escape" := by
      rcases hcode with h | h <;> rw [h] <;> decide
    have hdown : ¬(event.code = "ArrowDown" ∧ st.showSuggestions = true
        ∧ 0 < st.suggestions.length) := by
      rintro ⟨h1, -, -⟩
      rcases hcode with h | h <;> rw [h] at h1 <;> exact absurd h1 (by decide)
    have hup : ¬(event.code = "ArrowUp" ∧ st.showSuggestions = true
        ∧ 0 < st.suggestions.length) := by
      rintro ⟨h1, -, -⟩
      rcases hcode with h | h <;> rw [h] at h1 <;> exact absurd h1 (by decide)
    have htab : ¬(event.code = "Tab" ∧ st.showSuggestions = true
        ∧ 0 < st.suggestions.length) := by
      rintro ⟨h1, -, -⟩
      rcases hcode with h | h <;> rw [h] at h1 <;> exact absurd h1 (by decide)
    unfold handleStructuralKey
    rw [if_neg hne, if_neg hdown, if_neg hup, if_neg htab, if_pos hcode]
  · intro hcode
    unfold handleStructuralKey
    rw [if_pos hcode]

/-- Witness for C7 with concrete `Enter` and `Escape` events. -/
theorem C7_submitCancel_witness :
    handleFocuslessGlobalKey
        { code := "Enter", phase := KeyPhase.down, ctrl := false,
          shift := false, alt := false, meta := false }
        Option.none true ⟨⟨utf16 "hi", 2, 2⟩, [], false, 0⟩
      = (⟨⟨utf16 "hi", 2, 2⟩, [], false, 0⟩, ChatInputKeyAction.submit) ∧
    handleFocuslessGlobalKey
        { code := "Escape", phase := KeyPhase.down, ctrl := false,
          shift := false, alt := false, meta := false }
        Option.none true ⟨⟨utf16 "hi", 2, 2⟩, [], false, 0⟩
      = (⟨⟨utf16 "hi", 2, 2⟩, [], false, 0⟩, ChatInputKeyAction.cancel) :=
  ⟨(C7_submitCancel _ _ _ _ rfl rfl rfl rfl).1 (Or.inl rfl),
   (C7_submitCancel _ _ _ _ rfl rfl rfl rfl).2 rfl⟩

/-! ### C8 — suggestion-session index invariant and cycling -/

/-- The SuggestionSession invariant: whenever visible, `activeIndex`
lies in `[0, length(candidates))`. -/
def SuggestionIndexInv (st : EditorState) : Prop :=
  st.showSuggestions = true → st.activeIndex < st.suggestions.length

lemma suggestionIndexInv_text {st : EditorState} (t : TextState)
    (h : SuggestionIndexInv st) : SuggestionIndexInv { st with text := t } :=
  h

lemma handleStructuralKey_inv (event : GlobalKeyPayload) (st : EditorState)
    (hinv : SuggestionIndexInv st) :
    SuggestionIndexInv (handleStructuralKey event st).1 := by
  unfold handleStructuralKey
  by_cases h1 : event.code = "Escape"
  · rw [if_pos h1]
    exact hinv
  rw [if_neg h1]
  by_cases h2 : event.code = "ArrowDown" ∧ st.showSuggestions = true
      ∧ 0 < st.suggestions.length
  · rw [if_pos h2]
    intro hs
    exact Nat.mod_lt _ h2.2.2
  rw [if_neg h2]
  by_cases h3 : event.code = "ArrowUp" ∧ st.showSuggestions = true
      ∧ 0 < st.suggestions.length
  · rw [if_pos h3]
    intro hs
    have hi := hinv h3.2.1
    have hl := h3.2.2
    dsimp only
    split_ifs <;> omega
  rw [if_neg h3]
  by_cases h4 : event.code = "Tab" ∧ st.showSuggestions = true
      ∧ 0 < st.suggestions.length
  · rw [if_pos h4]
    rcases st.suggestions.get? st.activeIndex with _ | suggestion
    · exact hinv
    · intro hs
      exact absurd hs (by simp [insertSuggestion])
  rw [if_neg h4]
  by_cases h5 : event.code = "Enter" ∨ event.code = "NumpadEnter"
  · rw [if_pos h5]
    exact hinv
  rw [if_neg h5]
  by_cases h6 : event.code = "Backspace"
  · rw [if_pos h6]
    exact hinv
  rw [if_neg h6]
  by_cases h7 : event.code = "Delete"
  · rw [if_pos h7]
    exact hinv
  rw [if_neg h7]
  by_cases h8 : event.code = "ArrowLeft"
  · rw [if_pos h8]
    exact hinv
  rw [if_neg h8]
  by_cases h9 : event.code = "ArrowRight"
  · rw [if_pos h9]
    exact hinv
  rw [if_neg h9]
  by_cases h10 : event.code = "Home"
  · rw [if_pos h10]
    exact hinv
  rw [if_neg h10]
  by_cases h11 : event.code = "End"
  · rw [if_pos h11]
    exact hinv
  rw [if_neg h11]
  rcases resolveTextFromGlobalEvent event with _ | t
  · rcases mapPrintableCharacter event.code event.shift with _ | p
    · exact hinv
    · exact hinv
  · exact hinv

lemma handleFocuslessGlobalKey_inv (event : GlobalKeyPayload)
    (clipboardRead : Option (List Nat)) (writeOk : Bool) (st : EditorState)
    (hinv : SuggestionIndexInv st) :
    SuggestionIndexInv
      (handleFocuslessGlobalKey event clipboardRead writeOk st).1 := by
  unfold handleFocuslessGlobalKey
  split
  · exact hinv
  · split
    · exact hinv
    · split
      · exact handleStructuralKey_inv event st hinv
      · exact hinv

lemma resolveText_of_nonTextCode {event : GlobalKeyPayload}
    (hctrl : event.ctrl = false) (hmeta : event.meta = false)
    (halt : event.alt = false)
    (hmem : nonTextKeyCodes.contains event.code = true) :
    resolveTextFromGlobalEvent event = Option.none := by
  unfold resolveTextFromGlobalEvent
  rw [if_neg (by simp [hctrl, hmeta, halt]), if_pos hmem]

lemma mapPrintableCharacter_arrows (shift : Bool) :
    mapPrintableCharacter "ArrowDown" shift = Option.none ∧
    mapPrintableCharacter "ArrowUp" shift = Option.none := by
  cases shift <;> exact ⟨rfl, rfl⟩

/-- C8: (1) every recomputation of the candidate list resets
`activeIndex` to 0 and establishes the invariant "visible implies
`activeIndex < length(candidates)`"; (2) the key handler preserves that
invariant; (3) while suggestions are visible and non-empty, `ArrowDown`
cycles `activeIndex` forward modulo the candidate count and `ArrowUp`
backward (wrapping 0 to count−1), consuming the event; (4) with no
candidates the arrow keys leave the state unchanged. -/
theorem C8_suggestionSession :
    (∀ (usernames : List (List Nat)) (emojiTable : List EmojiSuggestion)
        (st : EditorState),
        (recomputeSuggestions usernames emojiTable st).activeIndex = 0 ∧
        SuggestionIndexInv (recomputeSuggestions usernames emojiTable st)) ∧
    (∀ (event : GlobalKeyPayload) (clipboardRead : Option (List Nat))
        (writeOk : Bool) (st : EditorState),
        SuggestionIndexInv st →
        SuggestionIndexInv
          (handleFocuslessGlobalKey event clipboardRead writeOk st).1) ∧
    (∀ (event : GlobalKeyPayload) (clipboardRead : Option (List Nat))
        (writeOk : Bool) (st : EditorState),
        event.phase = KeyPhase.down →
        event.ctrl = false → event.meta = false → event.alt = false →
        st.showSuggestions = true → 0 < st.suggestions.length →
        (event.code = "ArrowDown" →
          handleFocuslessGlobalKey event clipboardRead writeOk st
            = ({ st with activeIndex :=
                  (st.activeIndex + 1) % st.suggestions.length },
               ChatInputKeyAction.none)) ∧
        (event.code = "ArrowUp" →
          handleFocuslessGlobalKey event clipboardRead writeOk st
            = ({ st with activeIndex :=
                  if st.activeIndex = 0 then st.suggestions.length - 1
                  else st.activeIndex - 1 },
               ChatInputKeyAction.none))) ∧
    (∀ (event : GlobalKeyPayload) (clipboardRead : Option (List Nat))
        (writeOk : Bool) (st : EditorState),
        event.phase = KeyPhase.down →
        event.ctrl = false → event.meta = false → event.alt = false →
        st.suggestions.length = 0 →
        (event.code = "ArrowDown" ∨ event.code = "ArrowUp") →
        handleFocuslessGlobalKey event clipboardRead writeOk st
          = (st, ChatInputKeyAction.none)) := by
  refine ⟨?_, handleFocuslessGlobalKey_inv, ?_, ?_⟩
  · intro usernames emojiTable st
    simp only [recomputeSuggestions]
    split_ifs <;> refine ⟨rfl, fun hs => ?_⟩ <;>
      (try dsimp only at hs ⊢) <;>
      (try simp only [List.length_map]) <;>
      exact of_decide_eq_true hs
  · intro event clipboardRead writeOk st hphase hctrl hmeta halt hshow hlen
    rw [handleFocusless_structural clipboardRead writeOk st hphase hctrl
      hmeta halt]
    constructor
    · intro hcode
      unfold handleStructuralKey
      rw [if_neg (by rw [hcode]; decide), if_pos ⟨hcode, hshow, hlen⟩]
    · intro hcode
      have hnd : ¬(event.code = "ArrowDown" ∧ st.showSuggestions = true
          ∧ 0 < st.suggestions.length) := by
        rintro ⟨h1, -, -⟩
        rw [hcode] at h1
        exact absurd h1 (by decide)
      unfold handleStructuralKey
      rw [if_neg (by rw [hcode]; decide), if_neg hnd,
        if_pos ⟨hcode, hshow, hlen⟩]
  · intro event clipboardRead writeOk st hphase hctrl hmeta halt hlen hcode
    rw [handleFocusless_structural clipboardRead writeOk st hphase hctrl
      hmeta halt]
    have hfail : ∀ c : String, ¬(event.code = c ∧ st.showSuggestions = true
        ∧ 0 < st.suggestions.length) := by
      rintro c ⟨-, -, h⟩
      omega
    have hne : ∀ c : String, c ≠ "ArrowDown" → c ≠ "ArrowUp" →
        event.code ≠ c := by
      intro c hd hu h
      rcases hcode with ha | ha <;> rw [ha] at h
      · exact hd h.symm
      · exact hu h.symm
    unfold handleStructuralKey
    rw [if_neg (hne "Escape" (by decide) (by decide)),
      if_neg (hfail "ArrowDown"), if_neg (hfail "ArrowUp"),
      if_neg (hfail "Tab"),
      if_neg (by
        rintro (h | h)
        · exact hne "Enter" (by decide) (by decide) h
        · exact hne "NumpadEnter" (by decide) (by decide) h),
      if_neg (hne "Backspace" (by decide) (by decide)),
      if_neg (hne "Delete" (by decide) (by decide)),
      if_neg (hne "ArrowLeft" (by decide) (by decide)),
      if_neg (hne "ArrowRight" (by decide) (by decide)),
      if_neg (hne "Home" (by decide) (by decide)),
      if_neg (hne "End" (by decide) (by decide)),
      resolveText_of_nonTextCode hctrl hmeta halt
        (by rcases hcode with h | h <;> rw [h] <;> decide)]
    rcases hcode with h | h <;> rw [h]
    · rw [(mapPrintableCharacter_arrows event.shift).1]
    · rw [(mapPrintableCharacter_arrows event.shift).2]

/-- Witness for C8's quantified parts at concrete inputs: recomputation
on `"@a"` with one known username shows the session visible with index
0; `ArrowDown` then `ArrowUp` cycle the index over two candidates; the
arrows are no-ops without candidates. -/
theorem C8_suggestionSession_witness :
    ((recomputeSuggestions [utf16 "alice"] []
        ⟨⟨utf16 "@a", 2, 2⟩, [], false, 5⟩).activeIndex = 0 ∧
      SuggestionIndexInv (recomputeSuggestions [utf16 "alice"] []
        ⟨⟨utf16 "@a", 2, 2⟩, [], false, 5⟩)) ∧
    SuggestionIndexInv
      (handleFocuslessGlobalKey
        { code := "ArrowDown", phase := KeyPhase.down, ctrl := false,
          shift := false, alt := false, meta := false }
        Option.none true
        ⟨⟨utf16 "@a", 2, 2⟩,
          [Suggestion.mention (utf16 "a"), Suggestion.mention (utf16 "ab")],
          true, 1⟩).1 ∧
    handleFocuslessGlobalKey
        { code := "ArrowDown", phase := KeyPhase.down, ctrl := false,
          shift := false, alt := false, meta := false }
        Option.none true
        ⟨⟨utf16 "@a", 2, 2⟩,
          [Suggestion.mention (utf16 "a"), Suggestion.mention (utf16 "ab")],
          true, 1⟩
      = (⟨⟨utf16 "@a", 2, 2⟩,
          [Suggestion.mention (utf16 "a"), Suggestion.mention (utf16 "ab")],
          true, 0⟩, ChatInputKeyAction.none) ∧
    handleFocuslessGlobalKey
        { code := "ArrowUp", phase := KeyPhase.down, ctrl := false,
          shift := false, alt := false, meta := false }
        Option.none true ⟨⟨utf16 "hi", 2, 2⟩, [], false, 0⟩
      = (⟨⟨utf16 "hi", 2, 2⟩, [], false, 0⟩, ChatInputKeyAction.none) := by
  refine ⟨C8_suggestionSession.1 _ _ _, ?_, ?_, ?_⟩
  · exact C8_suggestionSession.2.1 _ _ _ _ (by intro h; decide)
  · have h := (C8_suggestionSession.2.2.1
        { code := "ArrowDown", phase := KeyPhase.down, ctrl := false,
          shift := false, alt := false, meta := false }
        Option.none true
        ⟨⟨utf16 "@a", 2, 2⟩,
          [Suggestion.mention (utf16 "a"), Suggestion.mention (utf16 "ab")],
          true, 1⟩
        rfl rfl rfl rfl rfl (by decide)).1 rfl
    rw [h]
    decide
  · exact C8_suggestionSession.2.2.2
      { code := "ArrowUp", phase := KeyPhase.down, ctrl := false,
        shift := false, alt := false, meta := false }
      Option.none true ⟨⟨utf16 "hi", 2, 2⟩, [], false, 0⟩
      rfl rfl rfl rfl rfl (Or.inr rfl)

end BloxChat
